import Mathlib

/-!
Shallow embedding of the appointment-booking server (`src/server.js`).

The server keeps appointments in two stores: a durable JSON data file
(`appointments.json`) used when `IS_VERCEL` is false, and a process-local
array `inMemoryAppointments` used when `IS_VERCEL` is true (read-only
filesystem).  The two HTTP operations modelled here are
`GET /api/appointments` (lines 62-78, `listAll`) and
`POST /api/appointments` (lines 81-310, `book`).

JavaScript values that may be `undefined` are modelled as `Option String`;
JS truthiness of such a value (`!x`) is `truthy` below.  I/O outcomes that
the code branches on (file read success, file write success, the clock
`Date.now()`, `new Date().toISOString()`, and the e-mail environment) are
passed in explicitly as a `BookEnv`.
-/

namespace DoctorServer

/-- An appointment record as constructed at `server.js` lines 115-125 and
stored in the data file / in-memory array. -/
structure Appointment where
  id : String
  appointment_date : Option String
  appointment_time : Option String
  patientName : Option String
  patientEmail : Option String
  patientPhone : Option String
  patientAdhaar : Option String
  concern : Option String
  createdAt : String
deriving DecidableEq, Repr

/-- The JSON body of a `POST /api/appointments` request
(destructured at `server.js` line 83). -/
structure BookRequest where
  appointment_date : Option String
  appointment_time : Option String
  patientName : Option String
  patientEmail : Option String
  patientPhone : Option String
  patientAdhaar : Option String
  concern : Option String
deriving DecidableEq, Repr

/-- JS truthiness of a possibly-`undefined` string value: `undefined` and
`""` are falsy, every other string is truthy. -/
def truthy : Option String → Bool
  | none => false
  | some s => !(s == "")

/-- The validation check of `server.js` line 86:
`!appointment_date || !appointment_time || !patientName` fails the request. -/
def validRequest (req : BookRequest) : Bool :=
  truthy req.appointment_date && truthy req.appointment_time &&
    truthy req.patientName

/-- Mutable server state: the mode flag `IS_VERCEL` (line 42), the
process-local array `inMemoryAppointments` (line 45) and the contents of the
data file `appointments.json` (line 41). -/
structure ServerState where
  isVercel : Bool
  inMemoryAppointments : List Appointment
  dataFile : List Appointment
deriving DecidableEq, Repr

/-- The e-mail environment read afresh on each booking (`server.js` lines
150-154) together with the outcomes of the three external transport calls
(`transporter.verify`, the admin `sendMail`, the patient `sendMail`). -/
structure NotifyEnv where
  emailUser : Option String
  emailPass : Option String
  emailTo : Option String
  verifyOk : Bool
  adminSendOk : Bool
  patientSendOk : Bool
deriving DecidableEq, Repr

/-- External inputs of one `book` invocation: whether
`fs.readFileSync` + `JSON.parse` of the data file succeeds (lines 97-102),
whether `fs.writeFileSync` succeeds (lines 135-140), the clock reading
`Date.now()` (line 116), the timestamp `new Date().toISOString()`
(line 124), and the notification environment. -/
structure BookEnv where
  readOk : Bool
  writeOk : Bool
  nowMs : Nat
  createdAt : String
  notify : NotifyEnv
deriving DecidableEq, Repr

/-- Result of a `book` invocation, as surfaced over HTTP:
400 `Missing required fields`, 409 `This time slot is already booked.`,
or 201 with the created record. -/
inductive BookResult where
  | validationError
  | slotTaken
  | created (a : Appointment)
deriving DecidableEq, Repr

/-- HTTP status of a `BookResult` (`server.js` lines 87, 112, 305). -/
def bookStatus : BookResult → Nat
  | .validationError => 400
  | .slotTaken => 409
  | .created _ => 201

/-- Error body of a `BookResult` (`server.js` lines 87, 112). -/
def bookErrorBody : BookResult → Option String
  | .validationError => some "Missing required fields"
  | .slotTaken => some "This time slot is already booked."
  | .created _ => none

/-- Collection loading inside `book` (`server.js` lines 90-103): the
in-memory array on Vercel, otherwise the data file, falling back to the
empty collection when the read or the parse fails. -/
def loadAppointments (st : ServerState) (readOk : Bool) : List Appointment :=
  if st.isVercel then st.inMemoryAppointments
  else if readOk then st.dataFile else []

/-- The slot-conflict predicate of `server.js` lines 106-109: some existing
record has `appointment_date` and `appointment_time` both strictly equal
(`===`) to the requested values. -/
def isTaken (appointments : List Appointment)
    (d t : Option String) : Bool :=
  appointments.any fun appt =>
    appt.appointment_date == d && appt.appointment_time == t

/-- Collection saving inside `book` (`server.js` lines 129-141): on Vercel
replace the in-memory array; otherwise write the data file, and if the write
fails keep the updated collection in memory instead. -/
def saveAppointments (st : ServerState) (writeOk : Bool)
    (appointments : List Appointment) : ServerState :=
  if st.isVercel then { st with inMemoryAppointments := appointments }
  else if writeOk then { st with dataFile := appointments }
  else { st with inMemoryAppointments := appointments }

/-- The record built at `server.js` lines 115-125: request fields plus
`id = Date.now().toString()` and `createdAt = new Date().toISOString()`. -/
def mkAppointment (req : BookRequest) (env : BookEnv) : Appointment :=
  { id := toString env.nowMs
    appointment_date := req.appointment_date
    appointment_time := req.appointment_time
    patientName := req.patientName
    patientEmail := req.patientEmail
    patientPhone := req.patientPhone
    patientAdhaar := req.patientAdhaar
    concern := req.concern
    createdAt := env.createdAt }

/-- Observable notification events of the block at `server.js`
lines 145-303. -/
inductive NotifyEvent where
  | credentialsMissingWarning
  | verifySucceeded
  | verifyFailed
  | adminEmailSent (recipient : String)
  | adminEmailFailed
  | patientEmailSent (recipient : String)
  | patientEmailFailed
  | patientEmailSkipped
deriving DecidableEq, Repr

/-- The notification block (`server.js` lines 145-303): runs only when both
`EMAIL_USER` and `EMAIL_PASS` are truthy; the verify failure and both
`sendMail` failures are each caught locally; the admin recipient is
`EMAIL_TO || EMAIL_USER`; the patient e-mail is sent only when
`patientEmail` is truthy. -/
def runNotifications (n : NotifyEnv) (req : BookRequest) : List NotifyEvent :=
  if truthy n.emailUser && truthy n.emailPass then
    (if n.verifyOk then [.verifySucceeded] else [.verifyFailed]) ++
    (if n.adminSendOk then
        [.adminEmailSent
          (if truthy n.emailTo then n.emailTo.getD "" else n.emailUser.getD "")]
      else [.adminEmailFailed]) ++
    (if truthy req.patientEmail then
        (if n.patientSendOk then [.patientEmailSent (req.patientEmail.getD "")]
         else [.patientEmailFailed])
      else [.patientEmailSkipped])
  else [.credentialsMissingWarning]

/-- The `POST /api/appointments` handler (`server.js` lines 81-310):
validate, load, conflict-check, construct, append, save, notify, 201. -/
def book (st : ServerState) (req : BookRequest) (env : BookEnv) :
    BookResult × ServerState × List NotifyEvent :=
  if validRequest req then
    let appointments := loadAppointments st env.readOk
    if isTaken appointments req.appointment_date req.appointment_time then
      (.slotTaken, st, [])
    else
      let newAppointment := mkAppointment req env
      let appointments' := appointments ++ [newAppointment]
      (.created newAppointment, saveAppointments st env.writeOk appointments',
        runNotifications env.notify req)
  else
    (.validationError, st, [])

/-- The `GET /api/appointments` handler (`server.js` lines 62-78): the
in-memory array on Vercel, otherwise the parsed data file; `none` models the
500 `Failed to read appointments` response when the read or parse throws. -/
def listAll (st : ServerState) (readOk : Bool) : Option (List Appointment) :=
  if st.isVercel then some st.inMemoryAppointments
  else if readOk then some st.dataFile else none

/-- A sequence of booking requests handled one after the other, collecting
each request's result. -/
def runBookings (st : ServerState) (steps : List (BookRequest × BookEnv)) :
    List BookResult × ServerState :=
  match steps with
  | [] => ([], st)
  | (req, env) :: rest =>
    let b := book st req env
    let r := runBookings b.2.1 rest
    (b.1 :: r.1, r.2)

/-- The slot of an appointment: its `(appointment_date, appointment_time)`
pair. -/
def slot (a : Appointment) : Option String × Option String :=
  (a.appointment_date, a.appointment_time)

/-- No two records of the collection occupy the same slot. -/
def NoDupSlots (l : List Appointment) : Prop :=
  l.Pairwise fun a b => slot a ≠ slot b

instance (l : List Appointment) : Decidable (NoDupSlots l) :=
  List.instDecidablePairwise l

/-- A fresh server state: empty collection in both stores. -/
def emptyState (isVercel : Bool) : ServerState :=
  { isVercel := isVercel, inMemoryAppointments := [], dataFile := [] }

/-! ### Unfolding lemmas for `book` -/

theorem book_eq_validationError (st : ServerState) (req : BookRequest)
    (env : BookEnv) (h : validRequest req = false) :
    book st req env = (.validationError, st, []) := by
  simp [book, h]

theorem book_eq_slotTaken (st : ServerState) (req : BookRequest)
    (env : BookEnv) (hv : validRequest req = true)
    (ht : isTaken (loadAppointments st env.readOk)
      req.appointment_date req.appointment_time = true) :
    book st req env = (.slotTaken, st, []) := by
  simp [book, hv, ht]

theorem book_eq_created (st : ServerState) (req : BookRequest)
    (env : BookEnv) (hv : validRequest req = true)
    (ht : isTaken (loadAppointments st env.readOk)
      req.appointment_date req.appointment_time = false) :
    book st req env = (.created (mkAppointment req env),
      saveAppointments st env.writeOk
        (loadAppointments st env.readOk ++ [mkAppointment req env]),
      runNotifications env.notify req) := by
  simp [book, hv, ht]

/-! ### Concrete sample data -/

/-- A concrete valid booking request. -/
def reqAsha : BookRequest :=
  { appointment_date := some "2024-06-01", appointment_time := some "10:00",
    patientName := some "Asha", patientEmail := some "asha@example.com",
    patientPhone := none, patientAdhaar := none, concern := some "checkup" }

/-- A second concrete valid booking request, for a different slot. -/
def reqRavi : BookRequest :=
  { appointment_date := some "2024-06-02", appointment_time := some "11:00",
    patientName := some "Ravi", patientEmail := none,
    patientPhone := some "9999999999", patientAdhaar := none, concern := none }

/-- A notification environment with no credentials configured. -/
def noCreds : NotifyEnv :=
  { emailUser := none, emailPass := none, emailTo := none,
    verifyOk := false, adminSendOk := false, patientSendOk := false }

/-- A booking environment in which the file read and write both succeed. -/
def okEnv (ms : Nat) : BookEnv :=
  { readOk := true, writeOk := true, nowMs := ms,
    createdAt := "2024-05-30T12:00:00.000Z", notify := noCreds }

/-! ### Basic lemmas -/

theorem isTaken_iff (l : List Appointment) (d t : Option String) :
    isTaken l d t = true ↔
      ∃ a ∈ l, a.appointment_date = d ∧ a.appointment_time = t := by
  simp [isTaken, List.any_eq_true]

theorem listAll_loadAppointments (st : ServerState) :
    listAll st true = some (loadAppointments st true) := by
  cases h : st.isVercel <;> simp [listAll, loadAppointments, h]

/-! ### C4: validation failures -/

/-- C4: a booking request whose `appointment_date`, `appointment_time` or
`patientName` is missing or empty is rejected with HTTP 400 and body
`{ error: "Missing required fields" }`, the server state is unchanged, and
the outcome is the same for every storage environment (no storage read or
write influences it). -/
theorem book_missing_fields_rejected (st : ServerState) (req : BookRequest)
    (env : BookEnv) (h : validRequest req = false) :
    book st req env = (.validationError, st, []) ∧
    bookStatus BookResult.validationError = 400 ∧
    bookErrorBody BookResult.validationError = some "Missing required fields" :=
  ⟨book_eq_validationError st req env h, rfl, rfl⟩

/-- Witness for C4 at a concrete input: an empty `patientName`. -/
theorem book_missing_fields_rejected_witness :
    book (emptyState false) { reqAsha with patientName := some "" }
        (okEnv 5) =
      (.validationError, emptyState false, []) ∧
    bookStatus BookResult.validationError = 400 ∧
    bookErrorBody BookResult.validationError = some "Missing required fields" :=
  book_missing_fields_rejected (emptyState false)
    { reqAsha with patientName := some "" } (okEnv 5) (by decide)

/-! ### C2: the slot-conflict rejection -/

/-- C2: a validated booking request fails with `SlotTaken` (HTTP 409, body
`{ error: "This time slot is already booked." }`) exactly when some record
of the loaded collection has `appointment_date` and `appointment_time` both
string-equal to the request's values, and on that failure the server state
is unchanged. -/
theorem book_slotTaken_iff_exact_match (st : ServerState) (req : BookRequest)
    (env : BookEnv) (hv : validRequest req = true) :
    ((book st req env).1 = .slotTaken ↔
      ∃ a ∈ loadAppointments st env.readOk,
        a.appointment_date = req.appointment_date ∧
        a.appointment_time = req.appointment_time) ∧
    bookStatus BookResult.slotTaken = 409 ∧
    bookErrorBody BookResult.slotTaken =
      some "This time slot is already booked." ∧
    ((book st req env).1 = .slotTaken → (book st req env).2.1 = st) := by
  cases ht : isTaken (loadAppointments st env.readOk)
      req.appointment_date req.appointment_time with
  | true =>
    rw [book_eq_slotTaken st req env hv ht]
    exact ⟨iff_of_true rfl ((isTaken_iff _ _ _).mp ht), rfl, rfl, fun _ => rfl⟩
  | false =>
    rw [book_eq_created st req env hv ht]
    refine ⟨iff_of_false (by simp) ?_, rfl, rfl, fun hcontra => absurd hcontra (by simp)⟩
    intro hex
    exact absurd ((isTaken_iff _ _ _).mpr hex) (by simp [ht])

/-- Witness for C2 at a concrete input: with "Asha" already holding the
slot, a second request for the same slot is rejected and the state kept. -/
theorem book_slotTaken_iff_exact_match_witness :
    ((book
        { isVercel := true,
          inMemoryAppointments := [mkAppointment reqAsha (okEnv 5)],
          dataFile := [] }
        { reqRavi with
            appointment_date := some "2024-06-01",
            appointment_time := some "10:00" }
        (okEnv 7)).1 = .slotTaken ↔
      ∃ a ∈ loadAppointments
          { isVercel := true,
            inMemoryAppointments := [mkAppointment reqAsha (okEnv 5)],
            dataFile := [] } (okEnv 7).readOk,
        a.appointment_date = some "2024-06-01" ∧
        a.appointment_time = some "10:00") ∧
    bookStatus BookResult.slotTaken = 409 ∧
    bookErrorBody BookResult.slotTaken =
      some "This time slot is already booked." ∧
    ((book
        { isVercel := true,
          inMemoryAppointments := [mkAppointment reqAsha (okEnv 5)],
          dataFile := [] }
        { reqRavi with
            appointment_date := some "2024-06-01",
            appointment_time := some "10:00" }
        (okEnv 7)).1 = .slotTaken →
      (book
        { isVercel := true,
          inMemoryAppointments := [mkAppointment reqAsha (okEnv 5)],
          dataFile := [] }
        { reqRavi with
            appointment_date := some "2024-06-01",
            appointment_time := some "10:00" }
        (okEnv 7)).2.1 =
        { isVercel := true,
          inMemoryAppointments := [mkAppointment reqAsha (okEnv 5)],
          dataFile := [] }) :=
  book_slotTaken_iff_exact_match
    { isVercel := true,
      inMemoryAppointments := [mkAppointment reqAsha (okEnv 5)],
      dataFile := [] }
    { reqRavi with
        appointment_date := some "2024-06-01",
        appointment_time := some "10:00" }
    (okEnv 7) (by decide)

/-! ### C6: notification outcomes never change the result -/

/-- C6: the booking result and the resulting server state are the same for
every notification environment (missing credentials, verify failure, admin
or patient send failure): notification dispatch never changes the returned
result and never removes the persisted record. -/
theorem notify_outcome_never_affects_result (st : ServerState)
    (req : BookRequest) (env : BookEnv) (n : NotifyEnv) :
    (book st req { env with notify := n }).1 = (book st req env).1 ∧
    (book st req { env with notify := n }).2.1 = (book st req env).2.1 := by
  cases hv : validRequest req with
  | false =>
    rw [book_eq_validationError st req { env with notify := n } hv,
      book_eq_validationError st req env hv]
    exact ⟨rfl, rfl⟩
  | true =>
    cases ht : isTaken (loadAppointments st env.readOk)
        req.appointment_date req.appointment_time with
    | true =>
      rw [book_eq_slotTaken st req { env with notify := n } hv ht,
        book_eq_slotTaken st req env hv ht]
      exact ⟨rfl, rfl⟩
    | false =>
      rw [book_eq_created st req { env with notify := n } hv ht,
        book_eq_created st req env hv ht]
      exact ⟨rfl, rfl⟩

/-! ### C9: durable-mode booking never reads the in-memory collection -/

/-- C9: when `IS_VERCEL` is false, the result of `book`, the resulting data
file and the notification events do not depend on the in-memory collection,
and the in-memory collection is only ever assigned (either left unchanged
or overwritten with the file-loaded collection plus the new record), never
read. -/
theorem book_durable_never_reads_inMemory (st : ServerState)
    (m : List Appointment) (req : BookRequest) (env : BookEnv)
    (h : st.isVercel = false) :
    (book { st with inMemoryAppointments := m } req env).1 =
      (book st req env).1 ∧
    (book { st with inMemoryAppointments := m } req env).2.1.dataFile =
      (book st req env).2.1.dataFile ∧
    (book { st with inMemoryAppointments := m } req env).2.2 =
      (book st req env).2.2 ∧
    ((book st req env).2.1.inMemoryAppointments =
        st.inMemoryAppointments ∨
      (book st req env).2.1.inMemoryAppointments =
        loadAppointments st env.readOk ++ [mkAppointment req env]) := by
  have hload : ∀ r, loadAppointments { st with inMemoryAppointments := m } r =
      loadAppointments st r := by
    intro r
    simp [loadAppointments, h]
  cases hv : validRequest req with
  | false =>
    rw [book_eq_validationError _ req env hv,
      book_eq_validationError _ req env hv]
    exact ⟨rfl, rfl, rfl, Or.inl rfl⟩
  | true =>
    cases ht : isTaken (loadAppointments st env.readOk)
        req.appointment_date req.appointment_time with
    | true =>
      have ht' : isTaken
          (loadAppointments { st with inMemoryAppointments := m } env.readOk)
          req.appointment_date req.appointment_time = true := by
        rw [hload]; exact ht
      rw [book_eq_slotTaken _ req env hv ht', book_eq_slotTaken _ req env hv ht]
      exact ⟨rfl, rfl, rfl, Or.inl rfl⟩
    | false =>
      have ht' : isTaken
          (loadAppointments { st with inMemoryAppointments := m } env.readOk)
          req.appointment_date req.appointment_time = false := by
        rw [hload]; exact ht
      rw [book_eq_created _ req env hv ht', book_eq_created _ req env hv ht]
      rw [hload]
      cases hw : env.writeOk with
      | true =>
        refine ⟨rfl, ?_, rfl, Or.inl ?_⟩ <;>
          simp [saveAppointments, h, hw]
      | false =>
        refine ⟨rfl, ?_, rfl, Or.inr ?_⟩ <;>
          simp [saveAppointments, h, hw]

/-- Witness for C9 at a concrete input: a durable-mode booking with a
populated in-memory collection. -/
theorem book_durable_never_reads_inMemory_witness :
    (book { emptyState false with
        inMemoryAppointments := [mkAppointment reqRavi (okEnv 3)] }
      reqAsha (okEnv 5)).1 = (book (emptyState false) reqAsha (okEnv 5)).1 ∧
    (book { emptyState false with
        inMemoryAppointments := [mkAppointment reqRavi (okEnv 3)] }
      reqAsha (okEnv 5)).2.1.dataFile =
      (book (emptyState false) reqAsha (okEnv 5)).2.1.dataFile ∧
    (book { emptyState false with
        inMemoryAppointments := [mkAppointment reqRavi (okEnv 3)] }
      reqAsha (okEnv 5)).2.2 =
      (book (emptyState false) reqAsha (okEnv 5)).2.2 ∧
    ((book (emptyState false) reqAsha (okEnv 5)).2.1.inMemoryAppointments =
        (emptyState false).inMemoryAppointments ∨
      (book (emptyState false) reqAsha (okEnv 5)).2.1.inMemoryAppointments =
        loadAppointments (emptyState false) (okEnv 5).readOk ++
          [mkAppointment reqAsha (okEnv 5)]) :=
  book_durable_never_reads_inMemory (emptyState false)
    [mkAppointment reqRavi (okEnv 3)] reqAsha (okEnv 5) rfl

/-! ### C10: durable-mode read failure proceeds with an empty collection -/

/-- C10: when `IS_VERCEL` is false and the data-file read or parse fails
during a validated booking, the conflict check passes vacuously, and when
the subsequent write succeeds the data file is overwritten with a
collection holding only the new record, discarding previously stored
records. -/
theorem book_read_failure_discards_file (st : ServerState)
    (req : BookRequest) (env : BookEnv) (h : st.isVercel = false)
    (hr : env.readOk = false) (hv : validRequest req = true)
    (hw : env.writeOk = true) :
    isTaken (loadAppointments st env.readOk) req.appointment_date
      req.appointment_time = false ∧
    book st req env = (.created (mkAppointment req env),
      { st with dataFile := [mkAppointment req env] },
      runNotifications env.notify req) := by
  have hload : loadAppointments st env.readOk = [] := by
    simp [loadAppointments, h, hr]
  have ht : isTaken (loadAppointments st env.readOk)
      req.appointment_date req.appointment_time = false := by
    rw [hload]; rfl
  refine ⟨ht, ?_⟩
  rw [book_eq_created st req env hv ht, hload]
  simp [saveAppointments, h, hw]

/-- Witness for C10 at a concrete input: the data file already holds the
very slot being requested, yet after the failed read the booking succeeds
and the file ends up holding only the new record. -/
theorem book_read_failure_discards_file_witness :
    isTaken
      (loadAppointments
        { isVercel := false, inMemoryAppointments := [],
          dataFile := [mkAppointment reqAsha (okEnv 5)] }
        ({ okEnv 9 with readOk := false }).readOk)
      reqAsha.appointment_date reqAsha.appointment_time = false ∧
    book
      { isVercel := false, inMemoryAppointments := [],
        dataFile := [mkAppointment reqAsha (okEnv 5)] }
      reqAsha { okEnv 9 with readOk := false } =
      (.created (mkAppointment reqAsha { okEnv 9 with readOk := false }),
        { isVercel := false, inMemoryAppointments := [],
          dataFile := [mkAppointment reqAsha { okEnv 9 with readOk := false }] },
        runNotifications ({ okEnv 9 with readOk := false }).notify reqAsha) :=
  book_read_failure_discards_file
    { isVercel := false, inMemoryAppointments := [],
      dataFile := [mkAppointment reqAsha (okEnv 5)] }
    reqAsha { okEnv 9 with readOk := false } rfl rfl (by decide) rfl

/-! ### C1: no two stored appointments share a slot -/

theorem noDupSlots_nil : NoDupSlots [] := List.Pairwise.nil

theorem noDupSlots_load (st : ServerState) (r : Bool)
    (hf : NoDupSlots st.dataFile) (hm : NoDupSlots st.inMemoryAppointments) :
    NoDupSlots (loadAppointments st r) := by
  cases hV : st.isVercel with
  | true => simpa [loadAppointments, hV] using hm
  | false =>
    cases r with
    | true => simpa [loadAppointments, hV] using hf
    | false => simpa [loadAppointments, hV] using noDupSlots_nil

theorem noDupSlots_append_fresh (l : List Appointment) (a : Appointment)
    (hl : NoDupSlots l)
    (hfresh : isTaken l a.appointment_date a.appointment_time = false) :
    NoDupSlots (l ++ [a]) := by
  rw [NoDupSlots, List.pairwise_append]
  refine ⟨hl, List.pairwise_singleton _ _, ?_⟩
  intro x hx b hb hslot
  rw [List.mem_singleton] at hb
  rw [hb] at hslot
  have h1 : x.appointment_date = a.appointment_date := congrArg Prod.fst hslot
  have h2 : x.appointment_time = a.appointment_time := congrArg Prod.snd hslot
  have : isTaken l a.appointment_date a.appointment_time = true :=
    (isTaken_iff _ _ _).mpr ⟨x, hx, h1, h2⟩
  rw [this] at hfresh
  exact Bool.noConfusion hfresh

theorem noDupSlots_save (st : ServerState) (w : Bool) (l : List Appointment)
    (hf : NoDupSlots st.dataFile) (hm : NoDupSlots st.inMemoryAppointments)
    (hl : NoDupSlots l) :
    NoDupSlots (saveAppointments st w l).dataFile ∧
    NoDupSlots (saveAppointments st w l).inMemoryAppointments := by
  cases hV : st.isVercel with
  | true =>
    simp only [saveAppointments, hV, if_true]
    exact ⟨hf, hl⟩
  | false =>
    cases w with
    | true =>
      simp only [saveAppointments, hV, if_false, if_true]
      exact ⟨hl, hm⟩
    | false =>
      simp only [saveAppointments, hV, if_false]
      exact ⟨hf, hl⟩

theorem noDupSlots_book_step (st : ServerState) (req : BookRequest)
    (env : BookEnv) (hf : NoDupSlots st.dataFile)
    (hm : NoDupSlots st.inMemoryAppointments) :
    NoDupSlots (book st req env).2.1.dataFile ∧
    NoDupSlots (book st req env).2.1.inMemoryAppointments := by
  cases hv : validRequest req with
  | false =>
    rw [book_eq_validationError st req env hv]
    exact ⟨hf, hm⟩
  | true =>
    cases ht : isTaken (loadAppointments st env.readOk)
        req.appointment_date req.appointment_time with
    | true =>
      rw [book_eq_slotTaken st req env hv ht]
      exact ⟨hf, hm⟩
    | false =>
      rw [book_eq_created st req env hv ht]
      exact noDupSlots_save st env.writeOk _ hf hm
        (noDupSlots_append_fresh _ _ (noDupSlots_load st env.readOk hf hm) ht)

/-- C1: starting from a state whose two stores each contain no duplicate
slots, after any sequence of booking operations both the data file and the
in-memory collection still contain no two appointments with the same
`(appointment_date, appointment_time)` pair. -/
theorem runBookings_preserves_noDupSlots (st : ServerState)
    (steps : List (BookRequest × BookEnv))
    (hf : NoDupSlots st.dataFile) (hm : NoDupSlots st.inMemoryAppointments) :
    NoDupSlots (runBookings st steps).2.dataFile ∧
    NoDupSlots (runBookings st steps).2.inMemoryAppointments := by
  induction steps generalizing st with
  | nil => exact ⟨hf, hm⟩
  | cons p rest ih =>
    obtain ⟨req, env⟩ := p
    have hstep := noDupSlots_book_step st req env hf hm
    have hred : (runBookings st ((req, env) :: rest)).2 =
        (runBookings (book st req env).2.1 rest).2 := rfl
    rw [hred]
    exact ih (book st req env).2.1 hstep.1 hstep.2

/-- Witness for C1 at a concrete input: two bookings (the second for an
already-taken slot) starting from empty stores. -/
theorem runBookings_preserves_noDupSlots_witness :
    NoDupSlots (runBookings (emptyState false)
      [(reqAsha, okEnv 5), (reqAsha, okEnv 6), (reqRavi, okEnv 7)]).2.dataFile ∧
    NoDupSlots (runBookings (emptyState false)
      [(reqAsha, okEnv 5), (reqAsha, okEnv 6),
        (reqRavi, okEnv 7)]).2.inMemoryAppointments :=
  runBookings_preserves_noDupSlots (emptyState false)
    [(reqAsha, okEnv 5), (reqAsha, okEnv 6), (reqRavi, okEnv 7)]
    (by decide) (by decide)

/-! ### The all-successful trace lemma (shared by several claims) -/

theorem load_save_eq (st : ServerState) (w : Bool) (l : List Appointment)
    (hw : st.isVercel = true ∨ w = true) :
    loadAppointments (saveAppointments st w l) true = l := by
  cases hV : st.isVercel with
  | true => simp [loadAppointments, saveAppointments, hV]
  | false =>
    rcases hw with h | h
    · rw [hV] at h
      cases h
    · simp [loadAppointments, saveAppointments, hV, h]

/-- In an environment whose reads and writes succeed, a list of valid
requests for pairwise-distinct and not-yet-taken slots produces one
`created` result per request and appends the created records, in order, to
the collection the active store holds. -/
theorem runBookings_ok_trace (steps : List (BookRequest × BookEnv))
    (st : ServerState)
    (hvalid : ∀ p ∈ steps, validRequest p.1 = true)
    (hok : ∀ p ∈ steps, p.2.readOk = true ∧ p.2.writeOk = true)
    (hfresh : ∀ p ∈ steps, isTaken (loadAppointments st true)
      p.1.appointment_date p.1.appointment_time = false)
    (hdist : (steps.map fun p =>
      (p.1.appointment_date, p.1.appointment_time)).Pairwise (· ≠ ·)) :
    (runBookings st steps).1 =
      steps.map (fun p => BookResult.created (mkAppointment p.1 p.2)) ∧
    loadAppointments (runBookings st steps).2 true =
      loadAppointments st true ++
        steps.map (fun p => mkAppointment p.1 p.2) := by
  induction steps generalizing st with
  | nil => exact ⟨rfl, (List.append_nil _).symm⟩
  | cons p rest ih =>
    obtain ⟨req, env⟩ := p
    simp only [List.map_cons] at hdist
    have hpc := List.pairwise_cons.mp hdist
    have hv := hvalid (req, env) (List.mem_cons_self _ _)
    have hr := (hok (req, env) (List.mem_cons_self _ _)).1
    have hw := (hok (req, env) (List.mem_cons_self _ _)).2
    have hfr := hfresh (req, env) (List.mem_cons_self _ _)
    have ht : isTaken (loadAppointments st env.readOk)
        req.appointment_date req.appointment_time = false := by
      rw [hr]
      exact hfr
    have hb := book_eq_created st req env hv ht
    have hstate : loadAppointments (book st req env).2.1 true =
        loadAppointments st true ++ [mkAppointment req env] := by
      rw [hb, hw, hr]
      exact load_save_eq st true _ (Or.inr rfl)
    have hfresh' : ∀ q ∈ rest, isTaken
        (loadAppointments (book st req env).2.1 true)
        q.1.appointment_date q.1.appointment_time = false := by
      intro q hq
      rw [hstate]
      apply Bool.eq_false_iff.mpr
      intro htrue
      obtain ⟨a, ha, h1, h2⟩ := (isTaken_iff _ _ _).mp htrue
      rcases List.mem_append.mp ha with hal | ham
      · have hcontra : isTaken (loadAppointments st true)
            q.1.appointment_date q.1.appointment_time = true :=
          (isTaken_iff _ _ _).mpr ⟨a, hal, h1, h2⟩
        rw [hfresh q (List.mem_cons_of_mem _ hq)] at hcontra
        exact Bool.noConfusion hcontra
      · rw [List.mem_singleton] at ham
        rw [ham] at h1 h2
        have hne : (req.appointment_date, req.appointment_time) ≠
            (q.1.appointment_date, q.1.appointment_time) :=
          hpc.1 _ (List.mem_map_of_mem _ hq)
        apply hne
        rw [Prod.mk.injEq]
        exact ⟨h1, h2⟩
    have ihm := ih (book st req env).2.1
      (fun q hq => hvalid q (List.mem_cons_of_mem _ hq))
      (fun q hq => hok q (List.mem_cons_of_mem _ hq))
      hfresh' hpc.2
    constructor
    · show (book st req env).1 ::
        (runBookings (book st req env).2.1 rest).1 = _
      rw [List.map_cons, ihm.1, hb]
    · show loadAppointments (runBookings (book st req env).2.1 rest).2 true = _
      rw [ihm.2, hstate, List.map_cons, List.append_assoc,
        List.singleton_append]

/-! ### C5: distinct-slot sequences all succeed and list in order -/

/-- C5: starting from an empty collection, in an environment whose file
reads and writes succeed, a sequence of valid booking requests with
pairwise-distinct `(appointment_date, appointment_time)` pairs yields a 201
`created` response carrying the created record (generated id and
`createdAt` populated) for every request, and a subsequent `listAll`
returns exactly the created records in booking order. -/
theorem distinct_slots_all_bookings_succeed (isVercel : Bool)
    (steps : List (BookRequest × BookEnv))
    (hvalid : ∀ p ∈ steps, validRequest p.1 = true)
    (hok : ∀ p ∈ steps, p.2.readOk = true ∧ p.2.writeOk = true)
    (hdist : (steps.map fun p =>
      (p.1.appointment_date, p.1.appointment_time)).Pairwise (· ≠ ·)) :
    (runBookings (emptyState isVercel) steps).1 =
      steps.map (fun p => BookResult.created (mkAppointment p.1 p.2)) ∧
    listAll (runBookings (emptyState isVercel) steps).2 true =
      some (steps.map fun p => mkAppointment p.1 p.2) := by
  have hload : loadAppointments (emptyState isVercel) true = [] := by
    cases isVercel <;> rfl
  have h := runBookings_ok_trace steps (emptyState isVercel) hvalid hok
    (fun q _ => by rw [hload]; rfl) hdist
  refine ⟨h.1, ?_⟩
  rw [listAll_loadAppointments, h.2, hload, List.nil_append]

/-- Witness for C5 at a concrete input: two bookings on distinct slots. -/
theorem distinct_slots_all_bookings_succeed_witness :
    (runBookings (emptyState true) [(reqAsha, okEnv 5), (reqRavi, okEnv 6)]).1 =
      [BookResult.created (mkAppointment reqAsha (okEnv 5)),
        BookResult.created (mkAppointment reqRavi (okEnv 6))] ∧
    listAll (runBookings (emptyState true)
        [(reqAsha, okEnv 5), (reqRavi, okEnv 6)]).2 true =
      some [mkAppointment reqAsha (okEnv 5), mkAppointment reqRavi (okEnv 6)] :=
  distinct_slots_all_bookings_succeed true
    [(reqAsha, okEnv 5), (reqRavi, okEnv 6)]
    (by decide) (by decide) (by decide)

/-! ### C7: generated ids -/

/-- C7 counterexample: two bookings whose `Date.now()` readings fall in the
same millisecond receive the same generated id, so the collection holds two
appointments with equal ids. -/
theorem duplicate_ids_same_millisecond :
    ((runBookings (emptyState true)
        [(reqAsha, okEnv 5), (reqRavi, okEnv 5)]).2.inMemoryAppointments.map
      Appointment.id) = ["5", "5"] ∧
    ¬ ((runBookings (emptyState true)
        [(reqAsha, okEnv 5), (reqRavi, okEnv 5)]).2.inMemoryAppointments.map
      Appointment.id).Pairwise (· ≠ ·) := by
  decide

/-- C7 amended: starting from an empty collection, for every sequence of
successful bookings whose `Date.now()` readings render to pairwise-distinct
strings (the clock advanced between creations), the generated ids of the
stored appointments are pairwise distinct. -/
theorem ids_unique_when_clock_distinct (isVercel : Bool)
    (steps : List (BookRequest × BookEnv))
    (hvalid : ∀ p ∈ steps, validRequest p.1 = true)
    (hok : ∀ p ∈ steps, p.2.readOk = true ∧ p.2.writeOk = true)
    (hdist : (steps.map fun p =>
      (p.1.appointment_date, p.1.appointment_time)).Pairwise (· ≠ ·))
    (hids : (steps.map fun p => toString p.2.nowMs).Pairwise (· ≠ ·)) :
    ((loadAppointments (runBookings (emptyState isVercel) steps).2 true).map
      Appointment.id).Pairwise (· ≠ ·) := by
  have hload : loadAppointments (emptyState isVercel) true = [] := by
    cases isVercel <;> rfl
  have h := runBookings_ok_trace steps (emptyState isVercel) hvalid hok
    (fun q _ => by rw [hload]; rfl) hdist
  rw [h.2, hload, List.nil_append, List.map_map]
  exact hids

/-- Witness for the amended C7 at a concrete input: two bookings one
millisecond apart. -/
theorem ids_unique_when_clock_distinct_witness :
    ((loadAppointments (runBookings (emptyState false)
        [(reqAsha, okEnv 5), (reqRavi, okEnv 6)]).2 true).map
      Appointment.id).Pairwise (· ≠ ·) :=
  ids_unique_when_clock_distinct false [(reqAsha, okEnv 5), (reqRavi, okEnv 6)]
    (by decide) (by decide) (by decide) (by decide)

/-! ### C3: the durable-mode write-failure fallback -/

/-- C3: in durable mode, when the data-file write fails the booking still
returns 201 with the created record and the in-memory fallback is updated;
but a subsequent `GET /api/appointments` in the same process serves the
data file, not the fallback, so the response does not contain the created
record. -/
theorem durable_write_failure_record_not_listed :
    (book (emptyState false) reqAsha { okEnv 5 with writeOk := false }).1 =
      BookResult.created
        (mkAppointment reqAsha { okEnv 5 with writeOk := false }) ∧
    (book (emptyState false) reqAsha
        { okEnv 5 with writeOk := false }).2.1.inMemoryAppointments =
      [mkAppointment reqAsha { okEnv 5 with writeOk := false }] ∧
    listAll (book (emptyState false) reqAsha
        { okEnv 5 with writeOk := false }).2.1 true = some [] := by
  decide

/-! ### C8: the book/listAll round trip -/

/-- C8 counterexample: after a durable-mode write failure, a later
`listAll` (file read succeeding) returns a collection with no entry equal
to the record the booking returned. -/
theorem roundtrip_fails_on_write_failure :
    (book (emptyState false) reqRavi { okEnv 11 with writeOk := false }).1 =
      BookResult.created
        (mkAppointment reqRavi { okEnv 11 with writeOk := false }) ∧
    mkAppointment reqRavi { okEnv 11 with writeOk := false } ∉
      (listAll (book (emptyState false) reqRavi
        { okEnv 11 with writeOk := false }).2.1 true).getD [] := by
  decide

/-- C8 amended: for every successful booking in volatile mode, or in
durable mode when the persistence write succeeds, the record returned by
`book` is field-for-field equal to the last entry of a subsequent
`listAll` with no intervening operations, optional fields included. -/
theorem book_listAll_roundtrip (st : ServerState) (req : BookRequest)
    (env : BookEnv) (hv : validRequest req = true)
    (ht : isTaken (loadAppointments st env.readOk) req.appointment_date
      req.appointment_time = false)
    (hw : st.isVercel = true ∨ env.writeOk = true) :
    (book st req env).1 = BookResult.created (mkAppointment req env) ∧
    listAll (book st req env).2.1 true =
      some (loadAppointments st env.readOk ++ [mkAppointment req env]) ∧
    (loadAppointments st env.readOk ++
      [mkAppointment req env]).getLast? = some (mkAppointment req env) := by
  rw [book_eq_created st req env hv ht]
  refine ⟨rfl, ?_, List.getLast?_concat _⟩
  rw [listAll_loadAppointments]
  rw [load_save_eq st env.writeOk _ hw]

/-- Witness for the amended C8 at a concrete input: a volatile-mode booking
on a state already holding one appointment. -/
theorem book_listAll_roundtrip_witness :
    (book
      { isVercel := true,
        inMemoryAppointments := [mkAppointment reqAsha (okEnv 5)],
        dataFile := [] } reqRavi (okEnv 7)).1 =
      BookResult.created (mkAppointment reqRavi (okEnv 7)) ∧
    listAll (book
      { isVercel := true,
        inMemoryAppointments := [mkAppointment reqAsha (okEnv 5)],
        dataFile := [] } reqRavi (okEnv 7)).2.1 true =
      some (loadAppointments
        { isVercel := true,
          inMemoryAppointments := [mkAppointment reqAsha (okEnv 5)],
          dataFile := [] } (okEnv 7).readOk ++
        [mkAppointment reqRavi (okEnv 7)]) ∧
    (loadAppointments
        { isVercel := true,
          inMemoryAppointments := [mkAppointment reqAsha (okEnv 5)],
          dataFile := [] } (okEnv 7).readOk ++
      [mkAppointment reqRavi (okEnv 7)]).getLast? =
      some (mkAppointment reqRavi (okEnv 7)) :=
  book_listAll_roundtrip
    { isVercel := true,
      inMemoryAppointments := [mkAppointment reqAsha (okEnv 5)],
      dataFile := [] } reqRavi (okEnv 7) (by decide) (by decide)
    (Or.inl rfl)

end DoctorServer
